import Mathlib

/-!
Verification of the modular game-engine skeleton: the host application
(Application::Run), the GraphicsModule backend and the common value types
(CommonTypes.h / IGraphics.h / IModule.h) are embedded shallowly below.
Native calls (LoadLibraryA, GetProcAddress, D3D11CreateDevice,
CreateTexture2D) are outside the repository; their outcomes are supplied
by explicit environment records.
-/

namespace Engine

/-- Result codes (enum class Result in CommonTypes.h). -/
inductive Result
  | Success
  | Failure
  | FileNotFound
  | InvalidParameter
  | OutOfMemory
  | NotInitialized
  | AlreadyInitialized
  | PlatformError
  deriving DecidableEq, Repr

/-- Module priority for initialization order (enum class ModulePriority). -/
inductive ModulePriority
  | Core
  | System
  | Engine
  | Game
  | UI
  deriving DecidableEq, Repr

/-- Texture formats (enum class TextureFormat in IGraphics.h). -/
inductive TextureFormat
  | R8_UNorm
  | RGBA8_UNorm
  | RGBA16_Float
  | Depth32_Float
  | BC1_UNorm
  | BC3_UNorm
  deriving DecidableEq, Repr

/-- Texture usage flags (enum class TextureUsage in IGraphics.h). -/
inductive TextureUsage
  | Static
  | Dynamic
  | RenderTarget
  deriving DecidableEq, Repr

/-- Math vector Vector2 of CommonTypes.h. The float32 components are
modelled as rationals; the external sqrtf is passed in explicitly where a
length is taken. -/
structure Vector2 where
  x : Rat
  y : Rat
  deriving DecidableEq, Repr

/-- The default constructor Vector2() sets both components to 0. -/
def Vector2.default : Vector2 := { x := 0, y := 0 }

/-- Vector2::Length: sqrtf(x*x + y*y), with sqrtf supplied as a function
(it is the C runtime's, outside the repository). -/
def Vector2.Length (sqrtf : Rat → Rat) (v : Vector2) : Rat :=
  sqrtf (v.x * v.x + v.y * v.y)

/-- Vector2::Normalized: computes len = Length() once, then divides each
component by len when len is strictly positive, else returns Vector2(). -/
def Vector2.Normalized (sqrtf : Rat → Rat) (v : Vector2) : Vector2 :=
  let len := Vector2.Length sqrtf v
  if len > 0 then { x := v.x / len, y := v.y / len } else Vector2.default

/-- Math vector Vector3 of CommonTypes.h, modelled like Vector2. -/
structure Vector3 where
  x : Rat
  y : Rat
  z : Rat
  deriving DecidableEq, Repr

/-- The default constructor Vector3() sets all components to 0. -/
def Vector3.default : Vector3 := { x := 0, y := 0, z := 0 }

/-- Vector3::Length: sqrtf(x*x + y*y + z*z). -/
def Vector3.Length (sqrtf : Rat → Rat) (v : Vector3) : Rat :=
  sqrtf (v.x * v.x + v.y * v.y + v.z * v.z)

/-- Vector3::Normalized: same guard as Vector2::Normalized. -/
def Vector3.Normalized (sqrtf : Rat → Rat) (v : Vector3) : Vector3 :=
  let len := Vector3.Length sqrtf v
  if len > 0 then { x := v.x / len, y := v.y / len, z := v.z / len }
  else Vector3.default

/-- Graphics resource handle for textures (IGraphics.h). The id field is
uint64 in the source; table sizes reachable by a std::vector of TextureData
records stay far below 2^64, so the id is modelled as a natural number. -/
structure TextureHandle where
  id : Nat
  deriving DecidableEq, Repr

/-- The default constructor TextureHandle() sets id to 0 (the sentinel). -/
def TextureHandle.default : TextureHandle := { id := 0 }

/-- TextureHandle::IsValid: id != 0. -/
def TextureHandle.IsValid (h : TextureHandle) : Bool := h.id != 0

/-- Graphics resource handle for shaders (IGraphics.h). -/
structure ShaderHandle where
  id : Nat
  deriving DecidableEq, Repr

/-- The default constructor ShaderHandle() sets id to 0. -/
def ShaderHandle.default : ShaderHandle := { id := 0 }

/-- ShaderHandle::IsValid: id != 0. -/
def ShaderHandle.IsValid (h : ShaderHandle) : Bool := h.id != 0

/-- Graphics resource handle for meshes (IGraphics.h). -/
structure MeshHandle where
  id : Nat
  deriving DecidableEq, Repr

/-- The default constructor MeshHandle() sets id to 0. -/
def MeshHandle.default : MeshHandle := { id := 0 }

/-- MeshHandle::IsValid: id != 0. -/
def MeshHandle.IsValid (h : MeshHandle) : Bool := h.id != 0

/-- Texture creation parameters (struct TextureDesc in IGraphics.h).
debugName is a const char pointer that may be null, modelled as an
optional string. -/
structure TextureDesc where
  width : Nat
  height : Nat
  format : TextureFormat
  usage : TextureUsage
  mipLevels : Nat
  debugName : Option String
  deriving DecidableEq, Repr

/-- Module metadata snapshot (struct ModuleInfo in IModule.h). -/
structure ModuleInfo where
  name : String
  version : String
  description : String
  priority : ModulePriority
  minimumApiVersion : Nat
  deriving DecidableEq, Repr

/-- Entry of the backend's resource table (struct TextureData in
GraphicsModule.cpp). The native texture object is opaque and tracked by a
numeric id. The view member is never written by CreateTexture in the
source (it stays uninitialized), so it is not modelled. -/
structure TextureData where
  texture : Nat
  width : Nat
  height : Nat
  deriving DecidableEq, Repr

/-- The mutable state of the graphics backend: the private members
m_Device, m_Context, m_Initialized of class GraphicsModule, and the
file-static resource table s_Textures of GraphicsModule.cpp (a global in
the source, threaded here as part of the state). Device and context are
null or an opaque native object id. -/
structure GraphicsModuleState where
  m_Device : Option Nat
  m_Context : Option Nat
  m_Initialized : Bool
  s_Textures : List TextureData
  deriving DecidableEq, Repr

/-- IsInitialized() of GraphicsModule: returns m_Initialized. -/
def GraphicsModuleState.IsInitialized (st : GraphicsModuleState) : Bool :=
  st.m_Initialized

/-- Outcomes of the native Direct3D calls made during one operation; these
calls are external to the repository. When D3D11CreateDevice fails it
stores null in its device and context output parameters (the documented
contract of that API), which the embedding of InitializeDirectX relies on.
-/
structure D3DEnv where
  deviceOk : Bool
  deviceObj : Nat
  contextObj : Nat
  createTexture2DOk : Bool
  textureObj : Nat
  deriving DecidableEq, Repr

/-- The constructor GraphicsModule::GraphicsModule(): m_Device and
m_Context null, m_Initialized false; the static table starts empty. -/
def GraphicsModule.construct : GraphicsModuleState :=
  { m_Device := none, m_Context := none, m_Initialized := false,
    s_Textures := [] }

/-- GraphicsModule::InitializeDirectX: calls D3D11CreateDevice with
m_Device and m_Context as the output parameters and returns SUCCEEDED(hr).
On failure the native call leaves both outputs null. -/
def GraphicsModule.InitializeDirectX (env : D3DEnv)
    (st : GraphicsModuleState) : Bool × GraphicsModuleState :=
  if env.deviceOk then
    (true, { st with m_Device := some env.deviceObj,
                     m_Context := some env.contextObj })
  else
    (false, { st with m_Device := none, m_Context := none })

/-- GraphicsModule::Initialize: AlreadyInitialized when m_Initialized is
already set; otherwise runs InitializeDirectX, returning Failure when it
fails, and on success sets m_Initialized and returns Success. -/
def GraphicsModule.Initialize (env : D3DEnv) (st : GraphicsModuleState) :
    Result × GraphicsModuleState :=
  if st.m_Initialized then (Result.AlreadyInitialized, st)
  else
    let r := GraphicsModule.InitializeDirectX env st
    if r.1 then (Result.Success, { r.2 with m_Initialized := true })
    else (Result.Failure, r.2)

/-- GraphicsModule::CreateTexture: returns TextureHandle() when the module
is not initialized; otherwise asks the device to create the native
texture; on success pushes a TextureData record onto s_Textures and
returns a handle whose id is the table size after the push; on native
failure returns TextureHandle(). -/
def GraphicsModule.CreateTexture (env : D3DEnv) (st : GraphicsModuleState)
    (desc : TextureDesc) : TextureHandle × GraphicsModuleState :=
  if !st.m_Initialized then (TextureHandle.default, st)
  else if env.createTexture2DOk then
    let data : TextureData :=
      { texture := env.textureObj, width := desc.width,
        height := desc.height }
    let table := st.s_Textures ++ [data]
    ({ id := table.length }, { st with s_Textures := table })
  else (TextureHandle.default, st)

/-- Modelled from the spec: the body of GraphicsModule::Shutdown is not
among the source files (the declaration is, and the spec section 4.3 says
Shutdown must release the device and context and clear the resource
table, and that calling it when not initialized must be a no-op, not a
fault). -/
def GraphicsModule.Shutdown (st : GraphicsModuleState) :
    GraphicsModuleState :=
  if st.m_Initialized then
    { m_Device := none, m_Context := none, m_Initialized := false,
      s_Textures := [] }
  else st

/-- Modelled from the spec: the body of GraphicsModule::DestroyTexture is
not among the source files (the declaration is). Per the spec, the table
is a flat sequential list, handles are the table size at creation (the
entry's one-based position), and destruction of an earlier entry corrupts
every handle allocated after it: destruction removes the handle's entry
from the list. An invalid handle is a no-op. -/
def GraphicsModule.DestroyTexture (st : GraphicsModuleState)
    (h : TextureHandle) : GraphicsModuleState :=
  if h.id = 0 then st
  else { st with s_Textures := st.s_Textures.eraseIdx (h.id - 1) }

/-- Modelled from the spec: the backend maps a handle to an internal
resource by the handle's one-based position in the flat sequential table
(no lookup routine appears among the source files; the spec section 3
defines the mapping). -/
def lookupTexture (st : GraphicsModuleState) (h : TextureHandle) :
    Option TextureData :=
  if h.id = 0 then none else st.s_Textures[h.id - 1]?

/-- The destructor GraphicsModule::~GraphicsModule() calls Shutdown(). -/
def GraphicsModule.destructor (st : GraphicsModuleState) :
    GraphicsModuleState :=
  GraphicsModule.Shutdown st

/-- GraphicsModule::GetName: the constant string the member returns. -/
def GraphicsModule.GetName (_st : GraphicsModuleState) : String :=
  "DirectX11 Graphics"

/-- GraphicsModule::GetVersion: the constant string the member returns. -/
def GraphicsModule.GetVersion (_st : GraphicsModuleState) : String :=
  "1.0.0"

/-- GraphicsModule::GetPriority: the constant priority the member returns.
-/
def GraphicsModule.GetPriority (_st : GraphicsModuleState) :
    ModulePriority :=
  ModulePriority.System

/-- The exported C-linkage CreateModule(): new GraphicsModule(). The value
is the state of the freshly constructed module. -/
def CreateModule : GraphicsModuleState := GraphicsModule.construct

/-- The exported C-linkage DestroyModule(module): delete runs the
destructor and then deallocates. The value is the module state at the
moment of deallocation. -/
def DestroyModule (st : GraphicsModuleState) : GraphicsModuleState :=
  GraphicsModule.destructor st

/-- The exported C-linkage GetModuleInfo() of GraphicsModule.cpp: the
aggregate it returns. -/
def GetModuleInfo : ModuleInfo :=
  { name := "DirectX11 Graphics", version := "1.0.0",
    description := "DirectX 11 rendering implementation",
    priority := ModulePriority.System, minimumApiVersion := 1 }

/-- Observable events of one execution of Application::Run (main.cpp).
Each constructor records one call the host makes, with the outcome of the
native calls and the module pointer passed across the ABI. -/
inductive HostEvent
  | loadLibrary (ok : Bool)
  | getProcAddress (symbol : String) (ok : Bool)
  | callCreateModule (ptr : Nat)
  | callInit
  | callClear
  | callDrawText
  | callUpdate
  | callShutdown
  | callDestroyModule (ptr : Nat)
  | callFreeLibrary
  deriving DecidableEq, Repr

/-- Outcomes of the native calls Application::Run makes, all external to
the repository: whether LoadLibraryA finds GraphicsModule.dll, whether
GetProcAddress resolves CreateModule and DestroyModule, whether the
dynamic_cast of the created module to IGraphics succeeds, and the opaque
pointer CreateModule returns. -/
structure HostEnv where
  loadOk : Bool
  hasCreateSymbol : Bool
  castOk : Bool
  hasDestroySymbol : Bool
  modulePtr : Nat
  deriving DecidableEq, Repr

/-- The guard of the host's main loop, read literally from the source:
running is initialized to true and the loop body never assigns it, so
runningAfter n is its value when the condition is tested for the
(n+1)-th time. -/
def runningAfter : Nat → Bool
  | 0 => true
  | n + 1 => runningAfter n

/-- The calls one iteration of the host's main loop makes: Clear,
DrawText, Update. -/
def frameBlock : List HostEvent :=
  [HostEvent.callClear, HostEvent.callDrawText, HostEvent.callUpdate]

/-- The events Application::Run has emitted after n completed loop
iterations, read off the source line by line. On the paths that never
reach the loop (load failure; CreateModule missing, an early return that
skips FreeLibrary; dynamic_cast failure, which skips the module block and
falls through to FreeLibrary) the run returns and the list is the whole
trace, independent of n. On the path that reaches the loop the guard
never turns false (runningAfter), so no event after the loop is ever
emitted and the list grows with n forever. -/
def runEvents (env : HostEnv) (n : Nat) : List HostEvent :=
  if env.loadOk = false then [HostEvent.loadLibrary false]
  else if env.hasCreateSymbol = false then
    [HostEvent.loadLibrary true, HostEvent.getProcAddress "CreateModule" false]
  else if env.castOk = false then
    [HostEvent.loadLibrary true, HostEvent.getProcAddress "CreateModule" true,
     HostEvent.callCreateModule env.modulePtr, HostEvent.callFreeLibrary]
  else
    [HostEvent.loadLibrary true, HostEvent.getProcAddress "CreateModule" true,
     HostEvent.callCreateModule env.modulePtr, HostEvent.callInit]
      ++ (List.replicate n frameBlock).flatten

/-- A native environment in which device creation succeeds and the first
texture creation succeeds, yielding native texture object 10. -/
def envTexA : D3DEnv :=
  { deviceOk := true, deviceObj := 1, contextObj := 2,
    createTexture2DOk := true, textureObj := 10 }

/-- A native environment like envTexA whose texture creation yields the
distinct native texture object 20. -/
def envTexB : D3DEnv :=
  { deviceOk := true, deviceObj := 1, contextObj := 2,
    createTexture2DOk := true, textureObj := 20 }

/-- A native environment in which D3D11CreateDevice fails. -/
def envDevFail : D3DEnv :=
  { deviceOk := false, deviceObj := 0, contextObj := 0,
    createTexture2DOk := false, textureObj := 0 }

/-- A small concrete texture description. -/
def texDescA : TextureDesc :=
  { width := 4, height := 4, format := TextureFormat.RGBA8_UNorm,
    usage := TextureUsage.Static, mipLevels := 1, debugName := none }

/-- The module state after a successful Initialize on a fresh module. -/
def stInitialized : GraphicsModuleState :=
  (GraphicsModule.Initialize envTexA GraphicsModule.construct).2

/-- First CreateTexture call on the initialized module: its handle. -/
def hTex1 : TextureHandle :=
  (GraphicsModule.CreateTexture envTexA stInitialized texDescA).1

/-- State after the first CreateTexture call. -/
def stOne : GraphicsModuleState :=
  (GraphicsModule.CreateTexture envTexA stInitialized texDescA).2

/-- Second CreateTexture call: its handle. -/
def hTex2 : TextureHandle :=
  (GraphicsModule.CreateTexture envTexB stOne texDescA).1

/-- State after the second CreateTexture call. -/
def stTwo : GraphicsModuleState :=
  (GraphicsModule.CreateTexture envTexB stOne texDescA).2

/-- A host environment in which the library loads but GetProcAddress
cannot resolve CreateModule. -/
def envMissingCreate : HostEnv :=
  { loadOk := true, hasCreateSymbol := false, castOk := true,
    hasDestroySymbol := true, modulePtr := 1 }

/-- A host environment in which the library loads, CreateModule resolves
and the dynamic_cast succeeds, so the run reaches the main loop. -/
def envFullLoad : HostEnv :=
  { loadOk := true, hasCreateSymbol := true, castOk := true,
    hasDestroySymbol := true, modulePtr := 5 }

/-- An element of the flattened replicated loop blocks is an element of
one block. -/
theorem mem_of_mem_flatten_replicate {α : Type} {x : α} {l : List α}
    {n : Nat} (h : x ∈ (List.replicate n l).flatten) : x ∈ l := by
  rcases List.mem_flatten.1 h with ⟨s, hs, hx⟩
  rcases List.eq_of_mem_replicate hs with rfl
  exact hx

/-- C1: the claim that after N successful CreateTexture calls destroying
the first handle leaves the remaining handles mapping to the same
textures fails at N = 2: handle 2 maps to the texture created second
before the destruction, and to nothing after it, because destruction
removes the first entry of the flat table and every later entry shifts.
-/
theorem destroy_first_corrupts_second_handle :
    hTex1 = { id := 1 } ∧ hTex2 = { id := 2 } ∧
    lookupTexture stTwo hTex2 =
      some { texture := 20, width := 4, height := 4 } ∧
    lookupTexture (GraphicsModule.DestroyTexture stTwo hTex1) hTex2
      = none := by
  decide

/-- C2: on the exit path of Application::Run taken when the library loads
but GetProcAddress cannot resolve CreateModule, the run returns with the
trace below, and no FreeLibrary call appears in it: the acquired library
handle is not released. -/
theorem run_missing_symbol_skips_free_library :
    runEvents envMissingCreate 0 =
      [HostEvent.loadLibrary true,
       HostEvent.getProcAddress "CreateModule" false] ∧
    ∀ n, HostEvent.callFreeLibrary ∉ runEvents envMissingCreate n := by
  refine ⟨rfl, fun n => ?_⟩
  simp [runEvents, envMissingCreate]

/-- C3: CreateTexture on a module whose Initialize has not succeeded
returns the sentinel invalid handle (id 0) and leaves the whole state,
the resource table included, unchanged. -/
theorem createTexture_before_init_returns_invalid
    (env : D3DEnv) (st : GraphicsModuleState) (desc : TextureDesc)
    (h : st.m_Initialized = false) :
    GraphicsModule.CreateTexture env st desc
      = (TextureHandle.default, st) := by
  simp [GraphicsModule.CreateTexture, h]

/-- C3 witness: a fresh module is uninitialized and CreateTexture on it
returns the invalid handle without touching the state. -/
theorem createTexture_before_init_witness :
    GraphicsModule.CreateTexture envTexA GraphicsModule.construct texDescA
      = (TextureHandle.default, GraphicsModule.construct) :=
  createTexture_before_init_returns_invalid envTexA
    GraphicsModule.construct texDescA rfl

/-- C4: Initialize returns AlreadyInitialized when the module is already
initialized (leaving the state untouched), returns Failure when native
device creation fails, never returns Success in either case, and after
the Failure case the module is uninitialized with both device and
context null. -/
theorem module_init_error_paths (env : D3DEnv) (st : GraphicsModuleState)
    (h : st.m_Initialized = true ∨ env.deviceOk = false) :
    (GraphicsModule.Initialize env st).1 ≠ Result.Success ∧
    (st.m_Initialized = true →
      GraphicsModule.Initialize env st
        = (Result.AlreadyInitialized, st)) ∧
    (st.m_Initialized = false →
      GraphicsModule.Initialize env st =
        (Result.Failure,
          { st with m_Device := none, m_Context := none }) ∧
      (GraphicsModule.Initialize env st).2.IsInitialized = false) := by
  cases hm : st.m_Initialized with
  | true => simp [GraphicsModule.Initialize, hm]
  | false =>
      have hd : env.deviceOk = false := by
        rcases h with h1 | h2
        · rw [hm] at h1; exact absurd h1 (by decide)
        · exact h2
      simp [GraphicsModule.Initialize, GraphicsModule.InitializeDirectX,
        GraphicsModuleState.IsInitialized, hm, hd]

/-- C4 witness: on a fresh module with failing native device creation,
Initialize returns Failure and retains no device state. -/
theorem module_init_error_paths_witness :
    (GraphicsModule.Initialize envDevFail GraphicsModule.construct).1
      ≠ Result.Success ∧
    (GraphicsModule.construct.m_Initialized = true →
      GraphicsModule.Initialize envDevFail GraphicsModule.construct
        = (Result.AlreadyInitialized, GraphicsModule.construct)) ∧
    (GraphicsModule.construct.m_Initialized = false →
      GraphicsModule.Initialize envDevFail GraphicsModule.construct =
        (Result.Failure,
          { GraphicsModule.construct with
              m_Device := none, m_Context := none }) ∧
      (GraphicsModule.Initialize envDevFail
        GraphicsModule.construct).2.IsInitialized = false) :=
  module_init_error_paths envDevFail GraphicsModule.construct (Or.inr rfl)

/-- C5: every default-constructed handle (TextureHandle, ShaderHandle,
MeshHandle) reports IsValid false, and the handle a successful
CreateTexture call returns reports IsValid true. -/
theorem handle_validity (env : D3DEnv) (st : GraphicsModuleState)
    (desc : TextureDesc) (hinit : st.m_Initialized = true)
    (hok : env.createTexture2DOk = true) :
    TextureHandle.IsValid TextureHandle.default = false ∧
    ShaderHandle.IsValid ShaderHandle.default = false ∧
    MeshHandle.IsValid MeshHandle.default = false ∧
    TextureHandle.IsValid (GraphicsModule.CreateTexture env st desc).1
      = true := by
  refine ⟨rfl, rfl, rfl, ?_⟩
  simp [GraphicsModule.CreateTexture, hinit, hok, TextureHandle.IsValid]

/-- C5 witness: on the initialized module, the concrete CreateTexture
call returns a valid handle, and the default handles are invalid. -/
theorem handle_validity_witness :
    TextureHandle.IsValid TextureHandle.default = false ∧
    ShaderHandle.IsValid ShaderHandle.default = false ∧
    MeshHandle.IsValid MeshHandle.default = false ∧
    TextureHandle.IsValid
      (GraphicsModule.CreateTexture envTexA stInitialized texDescA).1
      = true :=
  handle_validity envTexA stInitialized texDescA rfl rfl

/-- C6: in every run that constructs the module, the main loop's guard is
still true however many iterations have completed, so the loop never
exits and no Shutdown, DestroyModule or FreeLibrary call is ever emitted:
the post-loop teardown the claim describes is unreachable. -/
theorem loop_never_reaches_shutdown (env : HostEnv) (n : Nat)
    (hload : env.loadOk = true) (hsym : env.hasCreateSymbol = true)
    (hcast : env.castOk = true) :
    runningAfter n = true ∧
    HostEvent.callShutdown ∉ runEvents env n ∧
    HostEvent.callDestroyModule env.modulePtr ∉ runEvents env n ∧
    HostEvent.callFreeLibrary ∉ runEvents env n := by
  have hrun : ∀ m, runningAfter m = true := by
    intro m
    induction m with
    | zero => rfl
    | succ k ih => simpa [runningAfter] using ih
  have hpre : runEvents env n =
      [HostEvent.loadLibrary true,
       HostEvent.getProcAddress "CreateModule" true,
       HostEvent.callCreateModule env.modulePtr, HostEvent.callInit]
        ++ (List.replicate n frameBlock).flatten := by
    simp [runEvents, hload, hsym, hcast]
  refine ⟨hrun n, ?_, ?_, ?_⟩ <;>
  · rw [hpre]
    intro hmem
    rcases List.mem_append.1 hmem with hl | hr
    · simp at hl
    · have hb := mem_of_mem_flatten_replicate hr
      simp [frameBlock] at hb

/-- C6 witness: the concrete fully successful load environment after
three loop iterations: the guard is still true and no teardown event has
been emitted. -/
theorem loop_never_reaches_shutdown_witness :
    runningAfter 3 = true ∧
    HostEvent.callShutdown ∉ runEvents envFullLoad 3 ∧
    HostEvent.callDestroyModule envFullLoad.modulePtr
      ∉ runEvents envFullLoad 3 ∧
    HostEvent.callFreeLibrary ∉ runEvents envFullLoad 3 :=
  loop_never_reaches_shutdown envFullLoad 3 rfl rfl rfl

/-- C7: Shutdown is idempotent: a second Shutdown is a no-op (the two
states are equal), and IsInitialized is false after the first call and
after the second, from any state, an uninitialized one included. -/
theorem shutdown_idempotent (st : GraphicsModuleState) :
    GraphicsModule.Shutdown (GraphicsModule.Shutdown st)
      = GraphicsModule.Shutdown st ∧
    (GraphicsModule.Shutdown st).IsInitialized = false ∧
    (GraphicsModule.Shutdown
      (GraphicsModule.Shutdown st)).IsInitialized = false := by
  cases hm : st.m_Initialized <;>
    simp [GraphicsModule.Shutdown, GraphicsModuleState.IsInitialized, hm]

/-- C8: Vector2::Normalized and Vector3::Normalized return the zero
vector whenever the computed length is not strictly positive, so the
component-wise division is never performed on such inputs. -/
theorem normalized_zero_guard (sqrtf : Rat → Rat) (v2 : Vector2)
    (v3 : Vector3) (h2 : ¬ Vector2.Length sqrtf v2 > 0)
    (h3 : ¬ Vector3.Length sqrtf v3 > 0) :
    Vector2.Normalized sqrtf v2 = Vector2.default ∧
    Vector3.Normalized sqrtf v3 = Vector3.default := by
  constructor
  · simp [Vector2.Normalized, h2]
  · simp [Vector3.Normalized, h3]

/-- C8 witness: with a square-root function that returns zero, the
concrete vectors normalize to the zero vector. -/
theorem normalized_zero_guard_witness :
    Vector2.Normalized (fun _ => 0) { x := 1, y := 2 } = Vector2.default ∧
    Vector3.Normalized (fun _ => 0) { x := 1, y := 2, z := 3 }
      = Vector3.default :=
  normalized_zero_guard (fun _ => 0) { x := 1, y := 2 }
    { x := 1, y := 2, z := 3 } (by decide) (by decide)

/-- C9: DestroyModule runs the destructor, which calls Shutdown, so the
module state at deallocation reports IsInitialized false from every
starting state, also without a prior explicit Shutdown call. -/
theorem destroy_module_leaves_uninitialized (st : GraphicsModuleState) :
    DestroyModule st = GraphicsModule.Shutdown st ∧
    (DestroyModule st).IsInitialized = false := by
  cases hm : st.m_Initialized <;>
    simp [DestroyModule, GraphicsModule.destructor,
      GraphicsModule.Shutdown, GraphicsModuleState.IsInitialized, hm]

/-- C10: the exported GetModuleInfo agrees with the instance accessors on
every module state: its name, version and priority fields equal GetName,
GetVersion and GetPriority, which return the constants the claim names.
-/
theorem module_info_matches_accessors (st : GraphicsModuleState) :
    GetModuleInfo.name = GraphicsModule.GetName st ∧
    GetModuleInfo.version = GraphicsModule.GetVersion st ∧
    GetModuleInfo.priority = GraphicsModule.GetPriority st ∧
    GraphicsModule.GetName st = "DirectX11 Graphics" ∧
    GraphicsModule.GetVersion st = "1.0.0" ∧
    GraphicsModule.GetPriority st = ModulePriority.System :=
  ⟨rfl, rfl, rfl, rfl, rfl, rfl⟩

end Engine
